import Mathlib

/-!
Verification development for the multi-tenant WhatsApp session/webhook
relay server (`server.js`).  The server's in-memory maps, its durable
`whatsapp_sessions` / `webhook_logs` tables, and the HTTP handlers that
the claims refer to are shallowly embedded as executable Lean functions.
JavaScript `Map`s are modelled as association lists with Map semantics
(one binding per key via insert-replace), `async`/`await` suspension is
modelled explicitly where concurrency matters, and fallible external
calls (fetch, client.logout, client.destroy) are modelled by oracle
parameters describing the outcome of the call.
-/

namespace WhatsAppRelay

abbrev UserId := String

/-- Lookup in an association list (JS `Map.prototype.get`). -/
def alistGet {α : Type} : List (UserId × α) → UserId → Option α
  | [], _ => none
  | (k', v) :: t, k => if k' = k then some v else alistGet t k

/-- Insert-or-replace in an association list (JS `Map.prototype.set`). -/
def alistSet {α : Type} : List (UserId × α) → UserId → α → List (UserId × α)
  | [], k, v => [(k, v)]
  | (k', v') :: t, k, v => if k' = k then (k, v) :: t else (k', v') :: alistSet t k v

/-- Deletion from an association list (JS `Map.prototype.delete`). -/
def alistDel {α : Type} : List (UserId × α) → UserId → List (UserId × α)
  | [], _ => []
  | (k', v') :: t, k => if k' = k then alistDel t k else (k', v') :: alistDel t k

/-- Update the binding for a key when present (SQL `update ... where user_id = k`). -/
def alistUpdate {α : Type} : List (UserId × α) → UserId → (α → α) → List (UserId × α)
  | [], _, _ => []
  | (k', v) :: t, k, f => if k' = k then (k, f v) :: t else (k', v) :: alistUpdate t k f

theorem alistGet_alistSet {α : Type} (m : List (UserId × α)) (k : UserId) (v : α) :
    alistGet (alistSet m k v) k = some v := by
  induction m with
  | nil => simp [alistSet, alistGet]
  | cons hd t ih =>
      obtain ⟨k', v'⟩ := hd
      by_cases h : k' = k <;> simp [alistSet, alistGet, h, ih]

theorem alistGet_alistDel {α : Type} (m : List (UserId × α)) (k : UserId) :
    alistGet (alistDel m k) k = none := by
  induction m with
  | nil => simp [alistDel, alistGet]
  | cons hd t ih =>
      obtain ⟨k', v'⟩ := hd
      by_cases h : k' = k <;> simp [alistDel, alistGet, h, ih]

theorem alistGet_alistUpdate {α : Type} (m : List (UserId × α)) (k : UserId) (f : α → α) :
    alistGet (alistUpdate m k f) k = (alistGet m k).map f := by
  induction m with
  | nil => simp [alistUpdate, alistGet]
  | cons hd t ih =>
      obtain ⟨k', v'⟩ := hd
      by_cases h : k' = k <;> simp [alistUpdate, alistGet, h, ih]

/-! ## Input validation (`express-validator` chains)

`body('...').trim()` is a sanitizer: it rewrites the request field before
the remaining validators run and before the handler sees the value, so the
handlers below always receive trimmed strings. -/

/-- JavaScript whitespace characters relevant to `String.prototype.trim`
(ASCII subset; the test vectors in the claims use only these). -/
def isJsSpace (c : Char) : Bool :=
  c = ' ' || c = '\t' || c = '\n' || c = '\r' || c = '\x0b' || c = '\x0c'

/-- `String.prototype.trim` as applied by the `.trim()` sanitizer. -/
def jsTrim (s : String) : String :=
  String.mk (((s.data.dropWhile isJsSpace).reverse.dropWhile isJsSpace).reverse)

/-- A nonempty run of digits and dashes: the `[\d\-]+` part of the chat-id
and phone-number patterns. -/
def digitsDashes (l : List Char) : Bool :=
  !l.isEmpty && l.all (fun c => c.isDigit || c = '-')

/-- The regex `^[\d\-]+@[cg]\.us$` from the `/send-message` validator
(`body('chatId').matches(...)`). -/
def chatIdPattern (s : String) : Bool :=
  decide (5 ≤ s.data.length) &&
    (s.data.drop (s.data.length - 5) = "@c.us".data
      || s.data.drop (s.data.length - 5) = "@g.us".data) &&
    digitsDashes (s.data.take (s.data.length - 5))

/-- The regex `^[\d\-]+(@[cg]\.us)?$` from the `/webhook/send/:userId`
validator (`body('to').matches(...)`): the chat-domain suffix is optional. -/
def toPattern (s : String) : Bool :=
  if decide (5 ≤ s.data.length) &&
      (s.data.drop (s.data.length - 5) = "@c.us".data
        || s.data.drop (s.data.length - 5) = "@g.us".data)
  then digitsDashes (s.data.take (s.data.length - 5))
  else digitsDashes s.data

/-- Split a character list at dashes (the groups of a dashed identifier,
like `String.splitOn "-"`). -/
def splitDashes : List Char → List (List Char)
  | [] => [[]]
  | c :: t =>
      if c = '-' then [] :: splitDashes t
      else
        match splitDashes t with
        | [] => [[c]]
        | g :: gs => (c :: g) :: gs

def isHexChar (c : Char) : Bool :=
  c.isDigit || ('a' ≤ c && c ≤ 'f') || ('A' ≤ c && c ≤ 'F')

/-- validator.js `isUUID` (any version): five dash-separated groups of hex
digits with lengths 8-4-4-4-12. -/
def isUuid (s : String) : Bool :=
  match splitDashes s.data with
  | [a, b, c, d, e] =>
      decide (a.length = 8) && decide (b.length = 4) && decide (c.length = 4) &&
      decide (d.length = 4) && decide (e.length = 12) &&
      (a ++ b ++ c ++ d ++ e).all isHexChar
  | _ => false

/-- Validation chain of `POST /send-message` applied to the already-trimmed
field values: `chatId` nonempty and matching `chatIdPattern`, `message`
nonempty and at most 4096 characters.  Returns `some 400` when the
`validate` middleware rejects the request, `none` when validation passes. -/
def validateSendMessage (chatId message : String) : Option Nat :=
  if chatId = "" then some 400
  else if !chatIdPattern chatId then some 400
  else if message = "" then some 400
  else if 4096 < message.data.length then some 400
  else none

/-- Validation chain of `POST /webhook/send/:userId` applied to the trimmed
`to` and `message` and the raw `secret`: `to` matches `toPattern`,
`message` nonempty and at most 4096 characters, `secret` nonempty,
`userId` a UUID. -/
def validateWebhookSend (userId toStr message secret : String) : Bool :=
  isUuid userId && toPattern toStr && !(message = "") &&
    decide (message.data.length ≤ 4096) && !(secret = "")

/-! ## JSON values and `JSON.stringify`

Webhook payloads and durable log rows hold JSON values.  Escaping of
special characters inside string literals is not modelled; the payloads in
the claims contain none. -/

inductive Json where
  | null : Json
  | bool : Bool → Json
  | num : Int → Json
  | str : String → Json
  | arr : List Json → Json
  | obj : List (String × Json) → Json

mutual

def Json.stringify : Json → String
  | .null => "null"
  | .bool b => if b then "true" else "false"
  | .num n => toString n
  | .str s => "\"" ++ s ++ "\""
  | .arr xs => "[" ++ Json.stringifyArr xs ++ "]"
  | .obj kvs => "\x7b" ++ Json.stringifyObj kvs ++ "\x7d"

def Json.stringifyArr : List Json → String
  | [] => ""
  | [x] => Json.stringify x
  | x :: xs => Json.stringify x ++ "," ++ Json.stringifyArr xs

def Json.stringifyObj : List (String × Json) → String
  | [] => ""
  | [(k, v)] => "\"" ++ k ++ "\":" ++ Json.stringify v
  | (k, v) :: xs => "\"" ++ k ++ "\":" ++ Json.stringify v ++ "," ++ Json.stringifyObj xs

end

/-! ## Server state

The mutable state of `server.js`: the three in-memory `Map`s
(`whatsappClients`, `clientStates`, `userWebhooks`), the durable Supabase
tables `whatsapp_sessions` and `webhook_logs`, and an allocation counter
that models `new Client(...)` handing out a fresh, never-before-seen
connection handle. -/

/-- An opaque `whatsapp-web.js` `Client` object; two handles are the same
object exactly when their allocation ids coincide. -/
structure ClientHandle where
  id : Nat
deriving DecidableEq, Repr

/-- An entry of the `clientStates` map: `{ qr: '', ready: false, chats: [] }`. -/
structure ClientState where
  qr : String
  ready : Bool
  chats : List String
deriving DecidableEq, Repr

/-- A row of the durable `whatsapp_sessions` table (timestamp columns are
not modelled; no claim mentions them). -/
structure SessionRow where
  webhook_url : Option String
  webhook_enabled : Bool
  webhook_secret : Option String
  is_connected : Bool
deriving DecidableEq, Repr

/-- A row of the append-only `webhook_logs` table. -/
structure LogEntry where
  user_id : UserId
  direction : String
  status : String
  payload : Json
  response : Json

/-- An outbound HTTP request as issued by `fetch(url, options)`.
`timeoutMs` records the timeout option passed to the call, if any. -/
structure HttpRequest where
  url : String
  method : String
  contentType : String
  body : String
  timeoutMs : Option Nat
deriving DecidableEq, Repr

structure ServerState where
  whatsappClients : List (UserId × ClientHandle)
  clientStates : List (UserId × ClientState)
  userWebhooks : List (UserId × String)
  sessions : List (UserId × SessionRow)
  webhookLogs : List LogEntry
  nextClientId : Nat

def emptyServer : ServerState :=
  { whatsappClients := [], clientStates := [], userWebhooks := [],
    sessions := [], webhookLogs := [], nextClientId := 0 }

/-! ## `sendToWebhook` (server.js lines 182-224)

The outcome of the `fetch` call is an oracle parameter: `.ok status` for a
completed HTTP exchange (any status code), `.error msg` for a thrown
network error.  The function returns the updated state together with the
list of HTTP requests it issued. -/

def fetchStatusString : Except String Nat → String
  | .ok status => toString status
  | .error _ => "failed"

def fetchResponseJson : Except String Nat → Json
  | .ok status => Json.obj [("status", Json.num status)]
  | .error msg => Json.obj [("error", Json.str msg)]

def sendToWebhook (s : ServerState) (userId : UserId) (webhookData : Json)
    (fetchResult : Except String Nat) : ServerState × List HttpRequest :=
  match alistGet s.userWebhooks userId with
  | none => (s, [])
  | some webhookUrl =>
      let req : HttpRequest :=
        { url := webhookUrl, method := "POST", contentType := "application/json",
          body := Json.stringify webhookData, timeoutMs := none }
      let entry : LogEntry :=
        { user_id := userId, direction := "incoming",
          status := fetchStatusString fetchResult,
          payload := webhookData, response := fetchResponseJson fetchResult }
      ({ s with webhookLogs := s.webhookLogs ++ [entry] }, [req])

/-! ## `getWhatsAppClient` (server.js lines 227-388), sequential view

Registry hit returns the existing handle with no side effect; otherwise a
fresh `Client` is allocated, `clientStates` is initialised, the stored
webhook configuration is loaded into `userWebhooks` when enabled with a
URL, and the handle is registered.  The interleaved view used by the
concurrency claim appears further below. -/

def getWhatsAppClient (s : ServerState) (userId : UserId) : ServerState × ClientHandle :=
  match alistGet s.whatsappClients userId with
  | some client => (s, client)
  | none =>
      let client : ClientHandle := { id := s.nextClientId }
      let s1 := { s with
        nextClientId := s.nextClientId + 1,
        clientStates := alistSet s.clientStates userId { qr := "", ready := false, chats := [] } }
      let s2 :=
        match alistGet s1.sessions userId with
        | some row =>
            match row.webhook_url with
            | some url =>
                if row.webhook_enabled then
                  { s1 with userWebhooks := alistSet s1.userWebhooks userId url }
                else s1
            | none => s1
        | none => s1
      ({ s2 with whatsappClients := alistSet s2.whatsappClients userId client }, client)

/-! ## `POST /logout-whatsapp` (server.js lines 566-621) -/

/-- `client.logout()`: may throw; the handler wraps it in try/catch. -/
def clientLogout (_c : ClientHandle) (throws : Bool) : Except String Unit :=
  if throws then .error "logout failed" else .ok ()

/-- The body of the deferred `setTimeout` callback: `client.destroy()`
wrapped in try/catch.  Returns `true` iff an exception escapes the
callback — the catch block means it never does. -/
def deferredDestroyEscapes (_c : ClientHandle) (destroyThrows : Bool) : Bool :=
  match (if destroyThrows then Except.error "destroy failed" else Except.ok ()) with
  | Except.ok _ => false
  | Except.error (_ : String) => false

structure LogoutResponse where
  status : Nat
  success : Bool
  message : String
deriving DecidableEq, Repr

/-- The logout handler.  Result: updated state, HTTP response, and the
deferred destruction task (the torn-down handle with its 2000 ms delay),
when one was scheduled.  The `logoutThrows` oracle tells whether
`client.logout()` threw; the try/catch swallows either outcome. -/
def logoutWhatsapp (s : ServerState) (userId : UserId) (logoutThrows : Bool) :
    ServerState × LogoutResponse × Option (ClientHandle × Nat) :=
  match alistGet s.whatsappClients userId with
  | none =>
      (s, { status := 200, success := true,
            message := "WhatsApp disconnected. You will need to scan QR code again." }, none)
  | some client =>
      let _ := clientLogout client logoutThrows
      let s1 := { s with
        whatsappClients := alistDel s.whatsappClients userId,
        clientStates := alistDel s.clientStates userId,
        userWebhooks := alistDel s.userWebhooks userId,
        sessions := alistUpdate s.sessions userId (fun r => { r with is_connected := false }) }
      (s1, { status := 200, success := true,
             message := "WhatsApp disconnected. You will need to scan QR code again." },
       some (client, 2000))

/-! ## `GET /webhook/config` (server.js lines 638-671) -/

structure GetConfigResponse where
  status : Nat
  success : Bool
  webhook_url : Option String
  webhook_enabled : Bool
  webhook_secret : Option String
  outgoing_webhook_url : String
deriving DecidableEq, Repr

/-- The configuration read handler: `maybeSingle` row lookup, then each
field defaulted with `|| null` / `|| false`. -/
def getWebhookConfig (s : ServerState) (userId : UserId) (baseUrl : String) : GetConfigResponse :=
  let row := alistGet s.sessions userId
  { status := 200, success := true,
    webhook_url := row.bind (·.webhook_url),
    webhook_enabled := (row.map (·.webhook_enabled)).getD false,
    webhook_secret := row.bind (·.webhook_secret),
    outgoing_webhook_url := baseUrl ++ "/webhook/send/" ++ userId }

/-! ## `POST /webhook/config` (server.js lines 675-770)

`crypto.randomBytes(32).toString('hex')` is modelled by the
`freshSecret` parameter: an externally drawn random value, fresh for each
call.  The request body fields are `webhook_url` (absent or a validated
URL, hence nonempty) and `webhook_enabled` (absent or a boolean), matching
their `.optional()` validator chains. -/

structure ConfigResponse where
  status : Nat
  success : Bool
  message : String
  webhook_secret : Option String
deriving DecidableEq, Repr

def postWebhookConfig (s : ServerState) (userId : UserId)
    (webhook_url : Option String) (webhook_enabled : Option Bool)
    (freshSecret : String) : ServerState × ConfigResponse :=
  let urlVal : Option String := webhook_url
  let enabledVal : Bool := webhook_enabled.getD false
  let sessions' :=
    match alistGet s.sessions userId with
    | some _ =>
        alistUpdate s.sessions userId (fun r =>
          { r with webhook_url := urlVal, webhook_enabled := enabledVal,
                   webhook_secret := some freshSecret })
    | none =>
        alistSet s.sessions userId
          { webhook_url := urlVal, webhook_enabled := enabledVal,
            webhook_secret := some freshSecret, is_connected := false }
  let userWebhooks' :=
    match urlVal with
    | some url => if enabledVal then alistSet s.userWebhooks userId url
                  else alistDel s.userWebhooks userId
    | none => alistDel s.userWebhooks userId
  let revealSecret : Bool := enabledVal && urlVal.isSome
  ({ s with sessions := sessions', userWebhooks := userWebhooks' },
   { status := 200, success := true, message := "Webhook configured successfully",
     webhook_secret := if revealSecret then some freshSecret else none })

/-! ## `POST /webhook/send/:userId` (server.js lines 801-889) -/

structure SendResponse where
  status : Nat
  success : Bool
  error : Option String
  sentTo : Option String
deriving DecidableEq, Repr

/-- One call to the connection capability `client.sendMessage(chatId, message)`. -/
structure Dispatch where
  chatId : String
  message : String
deriving DecidableEq, Repr

/-- The handler body (after the `validate` middleware): check the stored
session row (absent or disabled → 403), then the secret (mismatch → 401),
then the redundant presence guard, then the registry (absent → 503), and
finally derive the chat id, dispatch once, and append a durable log row. -/
def webhookSendCore (s : ServerState) (userId toStr message secret : String) :
    ServerState × SendResponse × List Dispatch :=
  match alistGet s.sessions userId with
  | none =>
      (s, { status := 403, success := false,
            error := some "Webhook not enabled for this user", sentTo := none }, [])
  | some row =>
      if !row.webhook_enabled then
        (s, { status := 403, success := false,
              error := some "Webhook not enabled for this user", sentTo := none }, [])
      else if ¬(row.webhook_secret = some secret) then
        (s, { status := 401, success := false,
              error := some "Invalid webhook secret", sentTo := none }, [])
      else if toStr = "" ∨ message = "" then
        (s, { status := 400, success := false,
              error := some "Required fields: to, message, secret", sentTo := none }, [])
      else
        match alistGet s.whatsappClients userId with
        | none =>
            (s, { status := 503, success := false,
                  error := some "WhatsApp not connected for this user", sentTo := none }, [])
        | some _client =>
            let chatId := if toStr.data.contains '@' then toStr else toStr ++ "@c.us"
            let entry : LogEntry :=
              { user_id := userId, direction := "outgoing", status := "success",
                payload := Json.obj [("to", Json.str toStr), ("message", Json.str message)],
                response := Json.null }
            ({ s with webhookLogs := s.webhookLogs ++ [entry] },
             { status := 200, success := true, error := none, sentTo := some chatId },
             [{ chatId := chatId, message := message }])

/-- The full endpoint: `.trim()` sanitizers rewrite `to` and `message`,
the `validate` middleware rejects with 400 on any failed check, and the
handler body runs on the sanitized fields. -/
def webhookSendEndpoint (s : ServerState) (userId rawTo rawMessage secret : String) :
    ServerState × SendResponse × List Dispatch :=
  let toStr := jsTrim rawTo
  let message := jsTrim rawMessage
  if !validateWebhookSend userId toStr message secret then
    (s, { status := 400, success := false, error := some "Validation failed", sentTo := none }, [])
  else webhookSendCore s userId toStr message secret

/-! ## `getWhatsAppClient`, interleaved view (claim C1)

`getWhatsAppClient` is an `async` function whose body contains exactly one
suspension point before the handle is registered: the `await supabase...`
webhook-configuration read (line 252) sits between the registry test
(line 228, with the synchronous `new Client(...)` and `clientStates.set`
up to line 249) and `whatsappClients.set(userId, client)` (line 382).
Each call is therefore two atomic blocks:

* block 0 — test `whatsappClients.has(userId)`; on a hit, return the
  existing handle; on a miss, allocate a fresh `Client` and initialise
  `clientStates`, then suspend at the `await`;
* block 1 — resume: load the stored webhook configuration into
  `userWebhooks` (when enabled with a URL), register the handle in
  `whatsappClients`, and return it.

`createdClients` records every `new Client(...)` allocation and
`registeredClients` every value passed to `whatsappClients.set`, in
program order. -/

structure GwcThread where
  user : UserId
  pc : Nat
  localClient : Option ClientHandle
  result : Option ClientHandle
deriving DecidableEq, Repr

structure ConcState where
  server : ServerState
  createdClients : List ClientHandle
  registeredClients : List ClientHandle
  threads : List GwcThread

/-- Run the next atomic block of thread `i` (no-op on a missing or
finished thread). -/
def stepThread (s : ConcState) (i : Nat) : ConcState :=
  match s.threads[i]? with
  | none => s
  | some t =>
      match t.pc with
      | 0 =>
          match alistGet s.server.whatsappClients t.user with
          | some c =>
              { s with threads := s.threads.set i { t with pc := 2, result := some c } }
          | none =>
              let c : ClientHandle := { id := s.server.nextClientId }
              { s with
                server := { s.server with
                  nextClientId := s.server.nextClientId + 1,
                  clientStates := alistSet s.server.clientStates t.user
                    { qr := "", ready := false, chats := [] } },
                createdClients := s.createdClients ++ [c],
                threads := s.threads.set i { t with pc := 1, localClient := some c } }
      | 1 =>
          match t.localClient with
          | some c =>
              let srv := s.server
              let srv1 :=
                match alistGet srv.sessions t.user with
                | some row =>
                    match row.webhook_url with
                    | some url =>
                        if row.webhook_enabled then
                          { srv with userWebhooks := alistSet srv.userWebhooks t.user url }
                        else srv
                    | none => srv
                | none => srv
              { s with
                server := { srv1 with
                  whatsappClients := alistSet srv1.whatsappClients t.user c },
                registeredClients := s.registeredClients ++ [c],
                threads := s.threads.set i { t with pc := 2, result := some c } }
          | none => s
      | _ => s

/-- Run a schedule: a list of thread indices, each executing its next
atomic block in turn. -/
def runSched (s : ConcState) (sched : List Nat) : ConcState :=
  sched.foldl stepThread s

/-- Two concurrent `getWhatsAppClient("u")` calls against an empty
registry, neither yet started. -/
def twoCallsState : ConcState :=
  { server := emptyServer, createdClients := [], registeredClients := [],
    threads := [
      { user := "u", pc := 0, localClient := none, result := none },
      { user := "u", pc := 0, localClient := none, result := none }] }

/-- The interleaving in which both calls pass the registry test before
either registers: thread 0 runs to its `await`, thread 1 runs to its
`await`, then both resume. -/
def racedState : ConcState := runSched twoCallsState [0, 1, 0, 1]

/-! ## Claim theorems -/

/-- A message consisting of `n` copies of the letter a. -/
def msgOfLen (n : Nat) : String := String.mk (List.replicate n 'a')

theorem dropWhile_isJsSpace_replicate (n : Nat) :
    List.dropWhile isJsSpace (List.replicate n 'a') = List.replicate n 'a' := by
  cases n with
  | zero => rfl
  | succ m => simp [List.replicate_succ, List.dropWhile_cons, isJsSpace]

theorem jsTrim_msgOfLen (n : Nat) : jsTrim (msgOfLen n) = msgOfLen n := by
  show String.mk ((((List.replicate n 'a').dropWhile isJsSpace).reverse.dropWhile
    isJsSpace).reverse) = msgOfLen n
  rw [dropWhile_isJsSpace_replicate, List.reverse_replicate, dropWhile_isJsSpace_replicate,
    List.reverse_replicate]
  rfl

theorem msgOfLen_ne_empty (n : Nat) (h : n ≠ 0) : ¬(msgOfLen n = "") := by
  intro he
  have hlen : (msgOfLen n).data.length = ("" : String).data.length := by rw [he]
  simp [msgOfLen] at hlen
  exact h hlen

theorem msgOfLen_data_length (n : Nat) : (msgOfLen n).data.length = n := by
  simp [msgOfLen]

/-- Claim C8: on `POST /send-message`, a message of length 4097 is
rejected with status 400, a message of length 4096 (non-empty after
trimming) passes validation, chat id `123-456@c.us` passes validation,
and chat id `abc@c.us` is rejected with status 400. -/
theorem claim_C8_validation_cases :
    validateSendMessage (jsTrim "123-456@c.us") (jsTrim (msgOfLen 4097)) = some 400
    ∧ validateSendMessage (jsTrim "123-456@c.us") (jsTrim (msgOfLen 4096)) = none
    ∧ validateSendMessage (jsTrim "abc@c.us") (jsTrim (msgOfLen 10)) = some 400 := by
  refine ⟨?_, ?_, ?_⟩
  · rw [show jsTrim "123-456@c.us" = "123-456@c.us" from rfl, jsTrim_msgOfLen]
    rw [validateSendMessage, if_neg (by decide), if_neg (by decide),
      if_neg (msgOfLen_ne_empty 4097 (by decide)),
      if_pos (by rw [msgOfLen_data_length]; decide)]
  · rw [show jsTrim "123-456@c.us" = "123-456@c.us" from rfl, jsTrim_msgOfLen]
    rw [validateSendMessage, if_neg (by decide), if_neg (by decide),
      if_neg (msgOfLen_ne_empty 4096 (by decide)),
      if_neg (by rw [msgOfLen_data_length]; decide)]
  · rw [show jsTrim "abc@c.us" = "abc@c.us" from rfl, jsTrim_msgOfLen]
    rw [validateSendMessage, if_neg (by decide), if_pos (by decide)]

/-- Claim C10: `POST /logout-whatsapp` for a user with no session in the
registry responds 200 with `success: true` and leaves the whole server
state — registry, client-state map, webhook map, and durable store —
unchanged. -/
theorem claim_C10_logout_noop (s : ServerState) (userId : UserId) (logoutThrows : Bool)
    (h : alistGet s.whatsappClients userId = none) :
    logoutWhatsapp s userId logoutThrows =
      (s, { status := 200, success := true,
            message := "WhatsApp disconnected. You will need to scan QR code again." }, none) := by
  simp [logoutWhatsapp, h]

theorem claim_C10_witness :
    logoutWhatsapp emptyServer "u" false =
      (emptyServer, { status := 200, success := true,
                      message := "WhatsApp disconnected. You will need to scan QR code again." },
       none) :=
  claim_C10_logout_noop emptyServer "u" false rfl

/-- State in which user u enabled the webhook through
`POST /webhook/config`, which generated and stored the secret f00dfeed. -/
def c2State : ServerState :=
  (postWebhookConfig emptyServer "u" (some "https://example.com/hook") (some true) "f00dfeed").1

/-- Claim C2 is false on the code: the secret f00dfeed generated (and
returned) by a `POST /webhook/config` call is afterwards returned again,
in plaintext, by the read path `GET /webhook/config`. -/
theorem claim_C2_counterexample :
    (postWebhookConfig emptyServer "u" (some "https://example.com/hook")
        (some true) "f00dfeed").2.webhook_secret = some "f00dfeed"
    ∧ (getWebhookConfig c2State "u" "https://host").webhook_secret = some "f00dfeed" := by
  refine ⟨rfl, ?_⟩ ; rfl

/-- Claim C2 amended: the configuration read path returns the currently
stored webhook secret in plaintext — after any `POST /webhook/config`
call, `GET /webhook/config` returns exactly the secret that call
generated and stored. -/
theorem claim_C2_amended_read_returns_stored (s : ServerState) (userId : UserId)
    (url : Option String) (enabled : Option Bool) (freshSecret : String) (baseUrl : String) :
    (getWebhookConfig (postWebhookConfig s userId url enabled freshSecret).1
        userId baseUrl).webhook_secret = some freshSecret := by
  unfold getWebhookConfig postWebhookConfig
  cases h : alistGet s.sessions userId <;>
    simp [h, alistGet_alistSet, alistGet_alistUpdate]

/-- State in which user u has a webhook URL loaded in the in-memory
`userWebhooks` map. -/
def c7State : ServerState :=
  { emptyServer with userWebhooks := [("u", "https://example.com/hook")] }

/-- Claim C7 is false on the code: `sendToWebhook` issues its `fetch`
POST with no timeout option at all, so there is no 10-second (nor any)
application-level bound on the delivery attempt. -/
theorem claim_C7_counterexample :
    ∃ req ∈ (sendToWebhook c7State "u" Json.null (Except.ok 200)).2,
      req.timeoutMs = none := by
  exact ⟨{ url := "https://example.com/hook", method := "POST",
           contentType := "application/json", body := "null", timeoutMs := none },
         List.Mem.head _, rfl⟩

/-- Claim C7 amended: every HTTP request that `sendToWebhook` issues
carries no timeout option — deliveries are unbounded at the application
level rather than bounded by 10 seconds. -/
theorem claim_C7_amended_no_timeout (s : ServerState) (userId : UserId)
    (webhookData : Json) (fetchResult : Except String Nat) :
    ((sendToWebhook s userId webhookData fetchResult).2).all
      (fun req => req.timeoutMs.isNone) = true := by
  cases h : alistGet s.userWebhooks userId <;> simp [sendToWebhook, h]

/-- Claim C5: `sendToWebhook` is a no-op (state unchanged, no request)
when no webhook URL is configured for the user; otherwise it issues
exactly one HTTP POST carrying the JSON-serialized payload, appends
exactly one durable log row whose status is the HTTP status on completion
and the string failed on a thrown error, and returns normally (no retry,
nothing propagated) in every case. -/
theorem claim_C5_deliver_once_logged (s : ServerState) (userId : UserId)
    (webhookData : Json) (fetchResult : Except String Nat) :
    (alistGet s.userWebhooks userId = none →
      sendToWebhook s userId webhookData fetchResult = (s, []))
    ∧ (∀ url, alistGet s.userWebhooks userId = some url →
        (sendToWebhook s userId webhookData fetchResult).2 =
          [{ url := url, method := "POST", contentType := "application/json",
             body := Json.stringify webhookData, timeoutMs := none }]
        ∧ (sendToWebhook s userId webhookData fetchResult).1.webhookLogs =
            s.webhookLogs ++
              [{ user_id := userId, direction := "incoming",
                 status := fetchStatusString fetchResult,
                 payload := webhookData, response := fetchResponseJson fetchResult }]
        ∧ (sendToWebhook s userId webhookData fetchResult).1.whatsappClients =
            s.whatsappClients
        ∧ (sendToWebhook s userId webhookData fetchResult).1.userWebhooks = s.userWebhooks
        ∧ (sendToWebhook s userId webhookData fetchResult).1.sessions = s.sessions) := by
  constructor
  · intro h
    simp [sendToWebhook, h]
  · intro url h
    simp [sendToWebhook, h]

/-- State in which user u has a configured in-memory webhook URL, used to
instantiate the delivery claims. -/
def c5State : ServerState :=
  { emptyServer with userWebhooks := [("u", "https://example.com/hook")] }

theorem claim_C5_witness :
    sendToWebhook emptyServer "u" Json.null (Except.ok 200) = (emptyServer, [])
    ∧ (sendToWebhook c5State "u" Json.null (Except.error "boom")).1.webhookLogs =
        [{ user_id := "u", direction := "incoming", status := "failed",
           payload := Json.null, response := Json.obj [("error", Json.str "boom")] }] :=
  ⟨(claim_C5_deliver_once_logged emptyServer "u" Json.null (Except.ok 200)).1 rfl,
   ((claim_C5_deliver_once_logged c5State "u" Json.null (Except.error "boom")).2
      "https://example.com/hook" rfl).2.1⟩

/-- Claim C4: tearing down an existing session responds with success
independently of whether the graceful logout throws, removes the user
from the registry, durably marks the stored session disconnected,
schedules deferred destruction of the torn-down handle (2000 ms delay,
exceptions swallowed), and a subsequent `getWhatsAppClient` call
allocates a brand-new handle distinct from the torn-down one. -/
theorem claim_C4_teardown_fresh_handle (s : ServerState) (userId : UserId)
    (c : ClientHandle) (logoutThrows destroyThrows : Bool)
    (hc : alistGet s.whatsappClients userId = some c)
    (hid : c.id ≠ s.nextClientId) :
    (logoutWhatsapp s userId logoutThrows).2.1 =
      { status := 200, success := true,
        message := "WhatsApp disconnected. You will need to scan QR code again." }
    ∧ logoutWhatsapp s userId true = logoutWhatsapp s userId false
    ∧ alistGet (logoutWhatsapp s userId logoutThrows).1.whatsappClients userId = none
    ∧ alistGet (logoutWhatsapp s userId logoutThrows).1.sessions userId =
        (alistGet s.sessions userId).map (fun r => { r with is_connected := false })
    ∧ (logoutWhatsapp s userId logoutThrows).2.2 = some (c, 2000)
    ∧ deferredDestroyEscapes c destroyThrows = false
    ∧ (getWhatsAppClient (logoutWhatsapp s userId logoutThrows).1 userId).2.id =
        s.nextClientId
    ∧ (getWhatsAppClient (logoutWhatsapp s userId logoutThrows).1 userId).2 ≠ c := by
  have hreg : alistGet (logoutWhatsapp s userId logoutThrows).1.whatsappClients userId = none := by
    simp [logoutWhatsapp, hc, alistGet_alistDel]
  have hfresh : (getWhatsAppClient (logoutWhatsapp s userId logoutThrows).1 userId).2.id =
      s.nextClientId := by
    rw [getWhatsAppClient]
    simp only [hreg]
    simp [logoutWhatsapp, hc]
  refine ⟨by simp [logoutWhatsapp, hc], by simp [logoutWhatsapp, hc], hreg, ?_, ?_, ?_, hfresh, ?_⟩
  · simp [logoutWhatsapp, hc, alistGet_alistUpdate]
  · simp [logoutWhatsapp, hc]
  · cases destroyThrows <;> rfl
  · intro hce
    exact hid (by rw [← hce, hfresh])

/-- Concrete server state with a live session for u: handle 0 in the
registry, allocation counter at 1, a connected durable row. -/
def c4State : ServerState :=
  { whatsappClients := [("u", { id := 0 })],
    clientStates := [("u", { qr := "", ready := true, chats := [] })],
    userWebhooks := [("u", "https://example.com/hook")],
    sessions := [("u", { webhook_url := some "https://example.com/hook",
                         webhook_enabled := true, webhook_secret := some "s0",
                         is_connected := true })],
    webhookLogs := [], nextClientId := 1 }

theorem claim_C4_witness :
    alistGet (logoutWhatsapp c4State "u" false).1.whatsappClients "u" = none
    ∧ (logoutWhatsapp c4State "u" false).2.2 = some ({ id := 0 }, 2000)
    ∧ (getWhatsAppClient (logoutWhatsapp c4State "u" false).1 "u").2 ≠ { id := 0 } :=
  ⟨(claim_C4_teardown_fresh_handle c4State "u" { id := 0 } false true rfl
      (by decide)).2.2.1,
   (claim_C4_teardown_fresh_handle c4State "u" { id := 0 } false true rfl
      (by decide)).2.2.2.2.1,
   (claim_C4_teardown_fresh_handle c4State "u" { id := 0 } false true rfl
      (by decide)).2.2.2.2.2.2.2⟩

/-- Claim C1 fails on the code (code bug): because `getWhatsAppClient`
suspends at `await supabase...` between the `whatsappClients.has` test
and `whatsappClients.set`, the interleaving in which two concurrent calls
for the same user both pass the registry test before either registers
creates two distinct `Client` objects and registers both (the second
overwriting the first).  Under the sequential schedule the same two calls
create only one client.  The get-or-create intent — a call that finds an
existing entry returns it, and no interleaving registers two distinct
clients — is violated. -/
theorem claim_C1_concurrent_duplicate_clients :
    racedState.createdClients = [{ id := 0 }, { id := 1 }]
    ∧ racedState.registeredClients = [{ id := 0 }, { id := 1 }]
    ∧ ({ id := 0 } : ClientHandle) ≠ { id := 1 }
    ∧ alistGet racedState.server.whatsappClients "u" = some { id := 1 }
    ∧ racedState.threads.map (·.result) = [some { id := 0 }, some { id := 1 }]
    ∧ (runSched twoCallsState [0, 0, 1, 1]).createdClients = [{ id := 0 }]
    ∧ (runSched twoCallsState [0, 0, 1, 1]).threads.map (·.result) =
        [some { id := 0 }, some { id := 0 }] := by
  refine ⟨rfl, rfl, by decide, rfl, rfl, rfl, rfl⟩

/-- Modelled from the amended claim C3: the expected status and dispatch
list of the public send endpoint.  Absent or disabled configuration gives
403 with no dispatch regardless of the secret; with an enabled
configuration a wrong secret gives 401 with no dispatch; a matching
secret dispatches exactly once — with the chat id equal to `to` when it
contains an at-sign and `to` suffixed with the c.us chat domain otherwise
— when a connection handle is registered, and gives 503 with no dispatch
when none is. -/
def webhookSendExpected (s : ServerState) (userId toStr message secret : String) :
    Nat × List Dispatch :=
  match alistGet s.sessions userId with
  | none => (403, [])
  | some row =>
      if row.webhook_enabled = false then (403, [])
      else if ¬(row.webhook_secret = some secret) then (401, [])
      else
        match alistGet s.whatsappClients userId with
        | none => (503, [])
        | some _ =>
            (200, [{ chatId := if toStr.data.contains '@' then toStr else toStr ++ "@c.us",
                     message := message }])

theorem toPattern_ne_empty (t : String) (h : toPattern t = true) : ¬(t = "") := by
  intro he
  rw [he] at h
  exact absurd h (by decide)

theorem webhookSendCore_characterization (s : ServerState)
    (userId toStr message secret : String)
    (ht : ¬(toStr = "")) (hm : ¬(message = "")) :
    ((webhookSendCore s userId toStr message secret).2.1.status,
     (webhookSendCore s userId toStr message secret).2.2) =
      webhookSendExpected s userId toStr message secret := by
  rw [webhookSendCore, webhookSendExpected]
  cases halist : alistGet s.sessions userId with
  | none => rfl
  | some row =>
      by_cases he : row.webhook_enabled
      · by_cases hs : row.webhook_secret = some secret
        · cases hc : alistGet s.whatsappClients userId with
          | none => simp [he, hs, ht, hm, hc]
          | some c => simp [he, hs, ht, hm, hc]
        · simp [he, hs]
      · simp [he]

/-- Stored configuration for the zero UUID user: webhook disabled, with
the stored secret storedsecret. -/
def c3State : ServerState :=
  { emptyServer with
    sessions := [("00000000-0000-0000-0000-000000000000",
      { webhook_url := some "https://example.com/hook", webhook_enabled := false,
        webhook_secret := some "storedsecret", is_connected := false })] }

/-- Claim C3 is false on the code: with valid field formats, a supplied
secret that differs from the stored one is answered with 403 — not the
claimed 401 — when the stored enabled flag is false, because the handler
checks the enabled flag before the secret. (No dispatch occurs, as the
claim also says.) -/
theorem claim_C3_counterexample :
    (webhookSendEndpoint c3State "00000000-0000-0000-0000-000000000000"
        "123456" "hi" "wrongsecret").2.1.status = 403
    ∧ ¬((webhookSendEndpoint c3State "00000000-0000-0000-0000-000000000000"
        "123456" "hi" "wrongsecret").2.1.status = 401)
    ∧ (webhookSendEndpoint c3State "00000000-0000-0000-0000-000000000000"
        "123456" "hi" "wrongsecret").2.2 = [] := by
  refine ⟨rfl, by decide, rfl⟩

/-- Claim C3 amended: for every request to the public send endpoint that
passes field validation, the response status and the dispatches to the
connection capability are exactly those of `webhookSendExpected`: 403 and
no dispatch when the configuration is absent or disabled (regardless of
the secret), 401 and no dispatch when the configuration is enabled but
the secret differs, 503 and no dispatch when secret and enabled check out
but no connection handle is registered, and otherwise exactly one
dispatch whose chat id is `to` when `to` contains an at-sign and
`to` + the c.us suffix otherwise. -/
theorem claim_C3_amended_send_characterization (s : ServerState)
    (userId rawTo rawMessage secret : String)
    (hv : validateWebhookSend userId (jsTrim rawTo) (jsTrim rawMessage) secret = true) :
    ((webhookSendEndpoint s userId rawTo rawMessage secret).2.1.status,
     (webhookSendEndpoint s userId rawTo rawMessage secret).2.2) =
      webhookSendExpected s userId (jsTrim rawTo) (jsTrim rawMessage) secret := by
  rw [webhookSendEndpoint]
  simp only [hv]
  have hparts := hv
  rw [validateWebhookSend] at hparts
  simp only [Bool.and_eq_true, decide_eq_true_eq, Bool.not_eq_true'] at hparts
  refine webhookSendCore_characterization s userId _ _ secret ?_ ?_
  · exact toPattern_ne_empty _ hparts.1.1.1.2
  · intro hme
    have := hparts.1.1.2
    rw [hme] at this
    simp at this

theorem claim_C3_amended_witness :
    ((webhookSendEndpoint c3State "00000000-0000-0000-0000-000000000000"
        "123456" "hi" "wrongsecret").2.1.status,
     (webhookSendEndpoint c3State "00000000-0000-0000-0000-000000000000"
        "123456" "hi" "wrongsecret").2.2) =
      webhookSendExpected c3State "00000000-0000-0000-0000-000000000000"
        (jsTrim "123456") (jsTrim "hi") "wrongsecret" :=
  claim_C3_amended_send_characterization c3State "00000000-0000-0000-0000-000000000000"
    "123456" "hi" "wrongsecret" (by decide)

/-- The 403 response body of the public send endpoint, shared by the
no-configuration and webhook-disabled failures. -/
def notEnabledResp : SendResponse :=
  { status := 403, success := false,
    error := some "Webhook not enabled for this user", sentTo := none }

/-- The 401 response body of the public send endpoint on a secret
mismatch. -/
def invalidSecretResp : SendResponse :=
  { status := 401, success := false,
    error := some "Invalid webhook secret", sentTo := none }

/-- Stored configuration for the zero UUID user: webhook enabled, stored
secret storedsecret. -/
def c6EnabledState : ServerState :=
  { emptyServer with
    sessions := [("00000000-0000-0000-0000-000000000000",
      { webhook_url := some "https://example.com/hook", webhook_enabled := true,
        webhook_secret := some "storedsecret", is_connected := false })] }

/-- Claim C6 is false on the code: the secret-mismatch failure (401,
body error Invalid webhook secret) is distinguishable — in both status
and body — from the webhook-disabled failure (403, body error Webhook
not enabled for this user) on otherwise identical valid requests. -/
theorem claim_C6_counterexample :
    ¬((webhookSendEndpoint c6EnabledState "00000000-0000-0000-0000-000000000000"
        "123456" "hi" "wrongsecret").2.1.error =
      (webhookSendEndpoint c3State "00000000-0000-0000-0000-000000000000"
        "123456" "hi" "wrongsecret").2.1.error)
    ∧ ¬((webhookSendEndpoint c6EnabledState "00000000-0000-0000-0000-000000000000"
        "123456" "hi" "wrongsecret").2.1.status =
      (webhookSendEndpoint c3State "00000000-0000-0000-0000-000000000000"
        "123456" "hi" "wrongsecret").2.1.status) := by
  exact ⟨by decide, by decide⟩

/-- Claim C6 amended: the no-configuration and webhook-disabled failures
are mutually indistinguishable — both yield exactly `notEnabledResp` —
but a secret mismatch against an enabled configuration yields
`invalidSecretResp`, a response that differs from `notEnabledResp` in
status and body, so the caller can tell the secret check apart from the
enabled/configured checks. -/
theorem claim_C6_amended_distinguishable (s s' : ServerState)
    (userId toStr message secret : String) (row : SessionRow)
    (h1 : alistGet s.sessions userId = none)
    (h2 : alistGet s'.sessions userId = some row) :
    (webhookSendCore s userId toStr message secret).2.1 = notEnabledResp
    ∧ (row.webhook_enabled = false →
        (webhookSendCore s' userId toStr message secret).2.1 = notEnabledResp)
    ∧ (row.webhook_enabled = true → ¬(row.webhook_secret = some secret) →
        (webhookSendCore s' userId toStr message secret).2.1 = invalidSecretResp)
    ∧ ¬(invalidSecretResp = notEnabledResp) := by
  refine ⟨?_, ?_, ?_, by decide⟩
  · simp [webhookSendCore, h1, notEnabledResp]
  · intro he
    simp [webhookSendCore, h2, he, notEnabledResp]
  · intro he hs
    simp [webhookSendCore, h2, he, hs, invalidSecretResp]

theorem claim_C6_witness :
    (webhookSendCore emptyServer "00000000-0000-0000-0000-000000000000"
        "123456" "hi" "wrongsecret").2.1 = notEnabledResp
    ∧ (webhookSendCore c3State "00000000-0000-0000-0000-000000000000"
        "123456" "hi" "wrongsecret").2.1 = notEnabledResp
    ∧ (webhookSendCore c6EnabledState "00000000-0000-0000-0000-000000000000"
        "123456" "hi" "wrongsecret").2.1 = invalidSecretResp :=
  ⟨(claim_C6_amended_distinguishable emptyServer c6EnabledState
      "00000000-0000-0000-0000-000000000000" "123456" "hi" "wrongsecret"
      { webhook_url := some "https://example.com/hook", webhook_enabled := true,
        webhook_secret := some "storedsecret", is_connected := false } rfl rfl).1,
   (claim_C6_amended_distinguishable emptyServer c3State
      "00000000-0000-0000-0000-000000000000" "123456" "hi" "wrongsecret"
      { webhook_url := some "https://example.com/hook", webhook_enabled := false,
        webhook_secret := some "storedsecret", is_connected := false } rfl rfl).2.1 rfl,
   (claim_C6_amended_distinguishable emptyServer c6EnabledState
      "00000000-0000-0000-0000-000000000000" "123456" "hi" "wrongsecret"
      { webhook_url := some "https://example.com/hook", webhook_enabled := true,
        webhook_secret := some "storedsecret", is_connected := false } rfl rfl).2.2.1
     rfl (by decide)⟩

/-- Claim C9: every successful `POST /webhook/config` call overwrites the
stored webhook secret with the freshly generated random value — also when
the call disables the webhook or omits the URL — and the response
contains the new secret exactly when the call enables the webhook with a
URL; consequently, after a disabling call whose fresh secret never
appeared in any earlier response, the stored secret has been revealed by
no response at all. -/
theorem claim_C9_secret_rotation (s : ServerState) (userId : UserId)
    (url : Option String) (enabled : Option Bool) (freshSecret : String) :
    ((alistGet (postWebhookConfig s userId url enabled freshSecret).1.sessions userId).bind
        (fun r => r.webhook_secret)) = some freshSecret
    ∧ (postWebhookConfig s userId url enabled freshSecret).2.webhook_secret =
        (if enabled.getD false && url.isSome then some freshSecret else none)
    ∧ (∀ revealed : List String, freshSecret ∉ revealed →
        ¬(enabled.getD false = true ∧ url.isSome = true) →
        (postWebhookConfig s userId url enabled freshSecret).2.webhook_secret = none
        ∧ ∀ prev ∈ revealed,
            ¬((alistGet (postWebhookConfig s userId url enabled freshSecret).1.sessions
                userId).bind (fun r => r.webhook_secret) = some prev)) := by
  have h1 : ((alistGet (postWebhookConfig s userId url enabled freshSecret).1.sessions
      userId).bind (fun r => r.webhook_secret)) = some freshSecret := by
    unfold postWebhookConfig
    cases h : alistGet s.sessions userId <;>
      simp [h, alistGet_alistSet, alistGet_alistUpdate]
  have h2 : (postWebhookConfig s userId url enabled freshSecret).2.webhook_secret =
      (if enabled.getD false && url.isSome then some freshSecret else none) := rfl
  refine ⟨h1, h2, ?_⟩
  intro revealed hnotin hnot
  constructor
  · rw [h2, if_neg]
    intro hand
    exact hnot (by simpa [Bool.and_eq_true] using hand)
  · intro prev hprev heq
    rw [h1] at heq
    have hfp : freshSecret = prev := by injection heq
    rw [hfp] at hnotin
    exact hnotin hprev

theorem claim_C9_witness :
    ((alistGet (postWebhookConfig emptyServer "u" none (some false) "s9").1.sessions "u").bind
        (fun r => r.webhook_secret)) = some "s9"
    ∧ (postWebhookConfig emptyServer "u" none (some false) "s9").2.webhook_secret = none
    ∧ ¬((alistGet (postWebhookConfig emptyServer "u" none (some false) "s9").1.sessions
        "u").bind (fun r => r.webhook_secret) = some "olds") :=
  ⟨(claim_C9_secret_rotation emptyServer "u" none (some false) "s9").1,
   ((claim_C9_secret_rotation emptyServer "u" none (some false) "s9").2.2 ["olds"]
      (by decide) (by decide)).1,
   ((claim_C9_secret_rotation emptyServer "u" none (some false) "s9").2.2 ["olds"]
      (by decide) (by decide)).2 "olds" (List.Mem.head _)⟩

end WhatsAppRelay
